import Mathlib

/-!
# Rein-Seghal resonance cross section: `ReinSeghalRESPXSec`

A shallow embedding of `src/ReinSeghal/ReinSeghalRESPXSec.cxx`.

Conventions of the embedding.

* A C++ `double` is an element of a linearly ordered field `α`.  Every definition is
  computable for a computable `α` (the concrete evaluations below are done in `ℚ`), and
  every theorem holds in particular for `α = ℝ`.  Rounding, infinities and NaN are not part
  of this model; division by zero follows the field convention `x / 0 = 0`, so the results
  on amplitudes are only meaningful together with the non-zero divisors of `C10`.
* A C++ `int` is an `Int`; a C++ `bool` is a `Bool`.
* A failed `assert` or a dereferenced null pointer is the result `none`; a returned
  `double` `x` is `some x`.
* Everything the evaluator calls but does not define (the sub-algorithms, the kinematics
  utilities, `TMath::Sqrt`, the physical constants) is passed explicitly, as a field of
  `ReinSeghalRESPXSec` for the members of the class and as a field of `Externals` for the
  free functions and constants.
-/

namespace genie

/-! ## Data model -/

/-- The enumeration `Resonance_t` (BaryonResonance/BaryonResonance.h): a C enumeration,
represented by its integer code. -/
abbrev Resonance_t := Int

/-- Modelled from the spec: the enumeration `KinePhaseSpace_t` of Conventions/KineVar.h is
not part of the sources.  Only the native value `kPSWQ2fE` is named by the evaluator; every
other enumerator is `kPSOther` with its own tag. -/
inductive KinePhaseSpace_t where
  | kPSWQ2fE : KinePhaseSpace_t
  | kPSOther (tag : Nat) : KinePhaseSpace_t
  deriving DecidableEq

/-- Modelled from the spec: the enumeration `KineVar_t` of Conventions/KineVar.h is not part
of the sources.  The evaluator names the two enumerators `kKVW` and `kKVQ2`. -/
inductive KineVar_t where
  | kKVW : KineVar_t
  | kKVQ2 : KineVar_t
  deriving DecidableEq

/-- The closed interval `Range1D_t` of Utils/Range1.h. -/
structure Range1D_t (α : Type) where
  min : α
  max : α

/-- The `Target` part of an initial state. -/
structure Target (α : Type) where
  Z : Int
  N : Int
  StruckNucleonPDGCode : Int
  StruckNucleonMass : α

/-- The `InitialState` of an interaction.  `ProbeE` is the value of
`GetProbeE(kRfStruckNucAtRest)`, the only frame the evaluator asks for. -/
structure InitialState (α : Type) where
  ProbePDGCode : Int
  ProbeE : α
  GetTarget : Target α

/-- The `ProcessInfo` of an interaction. -/
structure ProcessInfo where
  IsWeak : Bool
  IsResonant : Bool
  IsWeakCC : Bool

/-- The `Kinematics` of an interaction. -/
structure Kinematics (α : Type) where
  W : α
  q2 : α

/-- The exclusive tag `XclsTag` of an interaction. -/
structure XclsTag where
  Resonance : Resonance_t
  KnownResonance : Bool

/-- The `Interaction` handed to the evaluator, with the three bits the evaluator reads
through `TestBit`. -/
structure Interaction (α : Type) where
  GetInitialState : InitialState α
  GetProcessInfo : ProcessInfo
  GetKinematics : Kinematics α
  GetExclusiveTag : XclsTag
  kISkipProcessChk : Bool
  kISkipKinematicChk : Bool
  kIAssumeFreeNucleon : Bool

/-- The six helicity amplitudes `RSHelicityAmpl`. -/
structure RSHelicityAmpl (α : Type) where
  AmpPlus1 : α
  AmpPlus3 : α
  AmpMinus1 : α
  AmpMinus3 : α
  Amp0Plus : α
  Amp0Minus : α

/-- The interface `BaryonResDataSetI` as read through `fBRP`: after `RetrieveData(res)` the
mass and the resonance index of `res`. -/
structure BaryonResDataSetI (α : Type) where
  Mass : Resonance_t → α
  ResonanceIndex : Resonance_t → Int

/-- The interface `RSHelicityAmplModelI`: `Compute` returns a pointer, `none` being the
null pointer.  `F` is the type of the FKR parameter bundle. -/
structure RSHelicityAmplModelI (α F : Type) where
  Compute : Resonance_t → F → Option (RSHelicityAmpl α)

/-- The interface `BreitWignerI`. -/
structure BreitWignerI (α : Type) where
  Eval : Resonance_t → α → α

/-- The data members of a configured `ReinSeghalRESPXSec`.  `fFKR` is the configured FKR
calculator, `fFKR q2 W Mnuc nresidx` being the bundle left by `fFKR.Calculate`;
`fBreitWigner` is a pointer, `none` being the null pointer. -/
structure ReinSeghalRESPXSec (α F : Type) where
  fZeta : α
  fOmega : α
  fMa2 : α
  fMv2 : α
  fWghtBW : Bool
  fFKR : α → α → α → Int → F
  fBaryonResDataSet : BaryonResDataSetI α
  fHAmplModelCC : RSHelicityAmplModelI α F
  fHAmplModelNCp : RSHelicityAmplModelI α F
  fHAmplModelNCn : RSHelicityAmplModelI α F
  fBreitWigner : Option (BreitWignerI α)
  fUsingDisResJoin : Bool
  fWcut : α

/-- The free functions and constants the evaluator uses and does not define:
`utils::kinematics::EnergyThreshold`, `utils::kinematics::KineRange`,
`utils::kinematics::Jacobian`, `TMath::Sqrt`, and the constants `kPi` (the number pi) and
`kGF` (the Fermi constant) of Conventions/Constants.h. -/
structure Externals (α : Type) where
  EnergyThreshold : Interaction α → α
  KineRange : Interaction α → KineVar_t → Range1D_t α
  Jacobian : Interaction α → KinePhaseSpace_t → KinePhaseSpace_t → α
  Sqrt : α → α
  kPi : α
  kGF : α

/-- Modelled from the spec: Conventions/Constants.h is not part of the sources.  The
constant `kPi2` is the square of `kPi`. -/
def Externals.kPi2 {α : Type} [LinearOrderedField α] (ext : Externals α) : α := ext.kPi ^ 2

/-- Modelled from the spec: Conventions/Constants.h is not part of the sources.  The
constant `kGF2` is the square of the Fermi constant `kGF`. -/
def Externals.kGF2 {α : Type} [LinearOrderedField α] (ext : Externals α) : α := ext.kGF ^ 2

namespace pdg

/-- Modelled from the spec: PDG/PDGCodes.h and PDG/PDGUtils.h are not part of the sources.
The struck nucleon is a proton when its code is the PDG code of the proton. -/
def kPdgProton : Int := 2212

/-- Modelled from the spec: the PDG code of the neutron. -/
def kPdgNeutron : Int := 2112

/-- Modelled from the spec: `pdg::IsProton`. -/
def IsProton (pdgc : Int) : Bool := pdgc == kPdgProton

/-- Modelled from the spec: `pdg::IsNeutron`. -/
def IsNeutron (pdgc : Int) : Bool := pdgc == kPdgNeutron

/-- Modelled from the spec: `pdg::IsNeutrino`, one of the three neutrino flavours. -/
def IsNeutrino (pdgc : Int) : Bool := pdgc == 12 || pdgc == 14 || pdgc == 16

/-- Modelled from the spec: `pdg::IsAntiNeutrino`, one of the three antineutrino flavours. -/
def IsAntiNeutrino (pdgc : Int) : Bool := pdgc == -12 || pdgc == -14 || pdgc == -16

end pdg

namespace utils.math

/-- Modelled from the spec: `utils::math::IsWithinLimits` (Utils/MathUtils.h is not part of
the sources), membership in the closed range. -/
def IsWithinLimits {α : Type} [LinearOrderedField α] (x : α) (range : Range1D_t α) : Bool :=
  decide (x ≥ range.min) && decide (x ≤ range.max)

end utils.math

/-! ## The validation gates -/

section Gates

variable {α : Type} [LinearOrderedField α]

/-- The method `ReinSeghalRESPXSec::ValidProcess` (lines 208-228). -/
def ValidProcess (interaction : Interaction α) : Bool :=
  if interaction.kISkipProcessChk then true
  else
    let init_state := interaction.GetInitialState
    let proc_info := interaction.GetProcessInfo
    let xcls := interaction.GetExclusiveTag
    if !proc_info.IsResonant then false
    else if !proc_info.IsWeak then false
    else
      let nuc := init_state.GetTarget.StruckNucleonPDGCode
      let nu := init_state.ProbePDGCode
      if !pdg.IsProton nuc && !pdg.IsNeutron nuc then false
      else if !pdg.IsNeutrino nu && !pdg.IsAntiNeutrino nu then false
      else if !xcls.KnownResonance then false
      else true

/-- The method `ReinSeghalRESPXSec::ValidKinematics` (lines 230-257). -/
def ValidKinematics (ext : Externals α) (interaction : Interaction α) : Bool :=
  if interaction.kISkipKinematicChk then true
  else
    let kinematics := interaction.GetKinematics
    let init_state := interaction.GetInitialState
    let E := init_state.ProbeE
    let W := kinematics.W
    let q2 := kinematics.q2
    let EvThr := ext.EnergyThreshold interaction
    if E ≤ EvThr then false
    else
      let rW := ext.KineRange interaction KineVar_t.kKVW
      let rQ2 := ext.KineRange interaction KineVar_t.kKVQ2
      let in_physical_range :=
        utils.math.IsWithinLimits W rW && utils.math.IsWithinLimits (-q2) rQ2
      if !in_physical_range then false
      else true

end Gates

/-! ## The cross section -/

section CrossSection

variable {α F : Type} [LinearOrderedField α]

/-- The local variables of lines 97-112 of `XSec`. -/
structure KineFactors (α : Type) where
  W2 : α
  Mnuc2 : α
  k : α
  v : α
  v2 : α
  Q2 : α
  Q : α
  Gf : α
  Wf : α
  Eprime : α
  U : α
  V : α
  U2 : α
  V2 : α
  UV : α

/-- Lines 97-112 of `XSec`: the auxiliary and kinematical factors of the Rein-Seghal model,
computed from `W`, `q2`, the struck nucleon mass `Mnuc` and the probe energy `E`. -/
def kineFactors (ext : Externals α) (W q2 Mnuc E : α) : KineFactors α :=
  let W2 := W ^ 2
  let Mnuc2 := Mnuc ^ 2
  let k := 0.5 * (W2 - Mnuc2) / Mnuc
  let v := k - 0.5 * q2 / Mnuc
  let v2 := v ^ 2
  let Q2 := v2 - q2
  let Q := ext.Sqrt Q2
  let Gf := ext.kGF2 / (4 * ext.kPi2)
  let Wf := (-q2 / Q2) * (W / Mnuc) * k
  let Eprime := E - v
  let U := 0.5 * (E + Eprime + Q) / E
  let V := 0.5 * (E + Eprime - Q) / E
  let U2 := U ^ 2
  let V2 := V ^ 2
  let UV := U * V
  { W2 := W2, Mnuc2 := Mnuc2, k := k, v := v, v2 := v2, Q2 := Q2, Q := Q, Gf := Gf,
    Wf := Wf, Eprime := Eprime, U := U, V := V, U2 := U2, V2 := V2, UV := UV }

/-- The three scaled helicity cross sections of lines 142-156 of `XSec`. -/
structure HelicityXSec (α : Type) where
  xsec_left : α
  xsec_right : α
  xsec_scalar : α

/-- Lines 142-156 of `XSec`: the helicity cross sections from the six amplitudes, scaled by
`scale_lr` and `scale_sc * (-Q2 / q2)`. -/
def helicityXSec (ext : Externals α) (hampl : RSHelicityAmpl α) (k Mres Mnuc Q2 q2 : α) :
    HelicityXSec α :=
  let xsec_left := hampl.AmpPlus3 ^ 2 + hampl.AmpPlus1 ^ 2
  let xsec_right := hampl.AmpMinus3 ^ 2 + hampl.AmpMinus1 ^ 2
  let xsec_scalar := hampl.Amp0Plus ^ 2 + hampl.Amp0Minus ^ 2
  let scale_lr := 0.5 * (ext.kPi / k) * (Mres / Mnuc)
  let scale_sc := 0.5 * (ext.kPi / k) * (Mnuc / Mres)
  { xsec_left := xsec_left * scale_lr
    xsec_right := xsec_right * scale_lr
    xsec_scalar := xsec_scalar * (scale_sc * (-Q2 / q2)) }

/-- Lines 166-171 of `XSec`: the combination of the helicity cross sections, for a neutrino
(`is_nu`) and for any other probe. -/
def combineXSec (is_nu : Bool) (Gf Wf U2 V2 UV xsec_left xsec_right xsec_scalar : α) : α :=
  if is_nu then
    Gf * Wf * (U2 * xsec_left + V2 * xsec_right + 2 * UV * xsec_scalar)
  else
    Gf * Wf * (V2 * xsec_left + U2 * xsec_right + 2 * UV * xsec_scalar)

/-- Lines 124-134 of `XSec`: the selection of the helicity amplitude model. -/
def selectHAmplModel (ev : ReinSeghalRESPXSec α F) (is_CC is_p : Bool) :
    RSHelicityAmplModelI α F :=
  if is_CC then ev.fHAmplModelCC
  else if is_p then ev.fHAmplModelNCp
  else ev.fHAmplModelNCn

/-- Lines 173-182 of `XSec`: the Breit-Wigner weight `bw`; `none` when weighting is on and
`fBreitWigner` is the null pointer. -/
def breitWignerWeight (ev : ReinSeghalRESPXSec α F) (resonance : Resonance_t) (W : α) :
    Option α :=
  if ev.fWghtBW then
    match ev.fBreitWigner with
    | none => none
    | some fBreitWigner => some (fBreitWigner.Eval resonance W)
  else some 1

/-- The method `ReinSeghalRESPXSec::XSec` (lines 58-206). -/
def XSec (ev : ReinSeghalRESPXSec α F) (ext : Externals α) (interaction : Interaction α)
    (kps : KinePhaseSpace_t) : Option α :=
  if !ValidProcess interaction then some 0
  else if !ValidKinematics ext interaction then some 0
  else
    let kinematics := interaction.GetKinematics
    let W := kinematics.W
    let q2 := kinematics.q2
    if ev.fUsingDisResJoin && decide (W ≥ ev.fWcut) then some 0
    else
      let init_state := interaction.GetInitialState
      let proc_info := interaction.GetProcessInfo
      let target := init_state.GetTarget
      let E := init_state.ProbeE
      let Mnuc := target.StruckNucleonMass
      let nucpdgc := target.StruckNucleonPDGCode
      let resonance := interaction.GetExclusiveTag.Resonance
      let Mres := ev.fBaryonResDataSet.Mass resonance
      let nresidx := ev.fBaryonResDataSet.ResonanceIndex resonance
      let kf := kineFactors ext W q2 Mnuc E
      let fkr := ev.fFKR q2 W Mnuc nresidx
      let is_CC := proc_info.IsWeakCC
      let is_p := pdg.IsProton nucpdgc
      let hamplmod := selectHAmplModel ev is_CC is_p
      match hamplmod.Compute resonance fkr with
      | none => none
      | some hampl =>
        let hx := helicityXSec ext hampl kf.k Mres Mnuc kf.Q2 q2
        let nupdgc := init_state.ProbePDGCode
        let is_nu := pdg.IsNeutrino nupdgc
        let xsec := combineXSec is_nu kf.Gf kf.Wf kf.U2 kf.V2 kf.UV
          hx.xsec_left hx.xsec_right hx.xsec_scalar
        match breitWignerWeight ev resonance W with
        | none => none
        | some bw =>
          let wxsec := bw * xsec
          -- `xsec *= J` for a non-native `kps`: the new value of `xsec` is never read
          let _xsec :=
            if kps ≠ KinePhaseSpace_t.kPSWQ2fE then
              xsec * ext.Jacobian interaction KinePhaseSpace_t.kPSWQ2fE kps
            else xsec
          if interaction.kIAssumeFreeNucleon then some wxsec
          else
            let NNucl : Int := if is_p then target.Z else target.N
            some (wxsec * (NNucl : α))

end CrossSection

/-! ## Configuration -/

section Configuration

variable {α F : Type} [LinearOrderedField α]

/-- Modelled from the spec: the class `Registry` is not part of the sources.  The keys the
evaluator reads from its own configuration `fConfig`, each present or absent. -/
structure Registry (α : Type) where
  Zeta : Option α
  Omega : Option α
  Ma : Option α
  Mv : Option α
  weight_with_breit_wigner : Option Bool
  weinberg_angle : Option α
  use_dis_res_joining_scheme : Option Bool
  Wcut : Option α

/-- Modelled from the spec: the global parameter list of `AlgConfigPool`, the fallback of
each numeric key. -/
structure GlobalParameterList (α : Type) where
  RS_Zeta : α
  RS_Omega : α
  RES_Ma : α
  RES_Mv : α
  WeinbergAngle : α
  Wcut : α

/-- Modelled from the spec: `Registry::GetDoubleDef`, the value of the key or the default. -/
def GetDoubleDef (value : Option α) (def_opt : α) : α := value.getD def_opt

/-- Modelled from the spec: `Registry::GetBoolDef`, the value of the key or the default. -/
def GetBoolDef (value : Option Bool) (def_opt : Bool) : Bool := value.getD def_opt

/-- The sub-algorithms as resolved by `SubAlg` and `AlgFactory::GetAlgorithm` followed by
the `dynamic_cast`; `none` is the null pointer. -/
structure SubAlgorithms (α F : Type) where
  baryonres_dataset : Option (BaryonResDataSetI α)
  breit_wigner : Option (BreitWignerI α)
  RSHelicityAmplModelCC : Option (RSHelicityAmplModelI α F)
  RSHelicityAmplModelNCp : Option (RSHelicityAmplModelI α F)
  RSHelicityAmplModelNCn : Option (RSHelicityAmplModelI α F)

/-- The method `ReinSeghalRESPXSec::LoadConfig` (lines 271-336).  `fkrConfigure zeta omega
ma mv thw` is the FKR calculator after `fFKR.Configure`; a failed `assert` is `none`. -/
def LoadConfig (fConfig : Registry α) (gc : GlobalParameterList α)
    (algs : SubAlgorithms α F) (fkrConfigure : α → α → α → α → α → (α → α → α → Int → F)) :
    Option (ReinSeghalRESPXSec α F) :=
  let fZeta := GetDoubleDef fConfig.Zeta gc.RS_Zeta
  let fOmega := GetDoubleDef fConfig.Omega gc.RS_Omega
  let ma := GetDoubleDef fConfig.Ma gc.RES_Ma
  let mv := GetDoubleDef fConfig.Mv gc.RES_Mv
  let fMa2 := ma ^ 2
  let fMv2 := mv ^ 2
  let fWghtBW := GetBoolDef fConfig.weight_with_breit_wigner true
  let thw := GetDoubleDef fConfig.weinberg_angle gc.WeinbergAngle
  let fFKR := fkrConfigure fZeta fOmega ma mv thw
  match algs.baryonres_dataset with
  | none => none
  | some fBaryonResDataSet =>
    let fBreitWigner : Option (BreitWignerI α) := if fWghtBW then algs.breit_wigner else none
    if fWghtBW && fBreitWigner.isNone then none
    else
      match algs.RSHelicityAmplModelCC, algs.RSHelicityAmplModelNCp,
        algs.RSHelicityAmplModelNCn with
      | some fHAmplModelCC, some fHAmplModelNCp, some fHAmplModelNCn =>
        let fUsingDisResJoin := GetBoolDef fConfig.use_dis_res_joining_scheme false
        let fWcut : α :=
          if fUsingDisResJoin then GetDoubleDef fConfig.Wcut gc.Wcut else 999999
        some
          { fZeta := fZeta, fOmega := fOmega, fMa2 := fMa2, fMv2 := fMv2, fWghtBW := fWghtBW
            fFKR := fFKR, fBaryonResDataSet := fBaryonResDataSet
            fHAmplModelCC := fHAmplModelCC, fHAmplModelNCp := fHAmplModelNCp
            fHAmplModelNCn := fHAmplModelNCn, fBreitWigner := fBreitWigner
            fUsingDisResJoin := fUsingDisResJoin, fWcut := fWcut }
      | _, _, _ => none

end Configuration

/-! ## Interactions that differ in one part -/

section Variants

variable {α : Type}

/-- The interaction `interaction` with the bit `kIAssumeFreeNucleon` set to `b`. -/
def withAssumeFreeNucleon (interaction : Interaction α) (b : Bool) : Interaction α :=
  { interaction with kIAssumeFreeNucleon := b }

/-- The interaction `interaction` with the proton and neutron counts of its target
replaced by `Z` and `N`. -/
def withZN (interaction : Interaction α) (Z N : Int) : Interaction α :=
  { interaction with
    GetInitialState :=
      { interaction.GetInitialState with
        GetTarget := { interaction.GetInitialState.GetTarget with Z := Z, N := N } } }

/-- The interaction `interaction` with the PDG code of its probe replaced by `nu`. -/
def withProbe (interaction : Interaction α) (nu : Int) : Interaction α :=
  { interaction with
    GetInitialState := { interaction.GetInitialState with ProbePDGCode := nu } }

/-- The amplitudes `hampl` with the plus and the minus helicities exchanged. -/
def swapPlusMinus (hampl : RSHelicityAmpl α) : RSHelicityAmpl α :=
  { AmpPlus1 := hampl.AmpMinus1, AmpPlus3 := hampl.AmpMinus3
    AmpMinus1 := hampl.AmpPlus1, AmpMinus3 := hampl.AmpPlus3
    Amp0Plus := hampl.Amp0Plus, Amp0Minus := hampl.Amp0Minus }

/-- The amplitude model `m` followed by the exchange of the plus and minus helicities. -/
def swapModel {F : Type} (m : RSHelicityAmplModelI α F) : RSHelicityAmplModelI α F :=
  { Compute := fun resonance fkr => (m.Compute resonance fkr).map swapPlusMinus }

/-- The evaluator `ev` with each of its three amplitude models followed by the exchange of
the plus and minus helicities. -/
def withSwappedAmpl {F : Type} (ev : ReinSeghalRESPXSec α F) : ReinSeghalRESPXSec α F :=
  { ev with
    fHAmplModelCC := swapModel ev.fHAmplModelCC
    fHAmplModelNCp := swapModel ev.fHAmplModelNCp
    fHAmplModelNCn := swapModel ev.fHAmplModelNCn }

/-- The evaluator `ev` with Breit-Wigner weighting on and `bw` as its weighter. -/
def withBreitWigner {F : Type} (ev : ReinSeghalRESPXSec α F) (bw : BreitWignerI α) :
    ReinSeghalRESPXSec α F :=
  { ev with fWghtBW := true, fBreitWigner := some bw }

end Variants

/-! ## The closed form of the deterministic fixture -/

section ClosedForm

variable {α : Type} [LinearOrderedField α]

/-- The closed form stated for the cross section of a neutrino with `AmpPlus3 = 1` as only
non-zero amplitude, written from the formulas of the specification:
`Gf * Wf * U^2 * 0.5 * (pi / k) * (Mres / Mnuc)`. -/
def closedFormXSec (ext : Externals α) (W q2 Mnuc Mres E : α) : α :=
  let k := (W ^ 2 - Mnuc ^ 2) / (2 * Mnuc)
  let v := k - q2 / (2 * Mnuc)
  let Q2 := v ^ 2 - q2
  let Q := ext.Sqrt Q2
  let Gf := ext.kGF ^ 2 / (4 * ext.kPi ^ 2)
  let Wf := (-q2 / Q2) * (W / Mnuc) * k
  let Eprime := E - v
  let U := (E + Eprime + Q) / (2 * E)
  Gf * Wf * U ^ 2 * 0.5 * (ext.kPi / k) * (Mres / Mnuc)

/-- The reduced closed form stated for the same cross section:
`(GF^2 / (8 pi)) * (-q2 / Q2) * (W * Mres / Mnuc^2) * U^2`. -/
def reducedClosedFormXSec (ext : Externals α) (W q2 Mnuc Mres E : α) : α :=
  let k := (W ^ 2 - Mnuc ^ 2) / (2 * Mnuc)
  let v := k - q2 / (2 * Mnuc)
  let Q2 := v ^ 2 - q2
  let Q := ext.Sqrt Q2
  let Eprime := E - v
  let U := (E + Eprime + Q) / (2 * E)
  (ext.kGF ^ 2 / (8 * ext.kPi)) * (-q2 / Q2) * (W * Mres / Mnuc ^ 2) * U ^ 2

end ClosedForm

/-! ## A concrete evaluator over the rationals -/

section Fixture

/-- Externals over `ℚ`: threshold `1/2`, every range `[0, 10]`, a Jacobian that is `2`
everywhere, the rational square root, and the constants `kPi = 22/7`, `kGF = 1`. -/
def extQ : Externals ℚ where
  EnergyThreshold := fun _ => 1 / 2
  KineRange := fun _ _ => { min := 0, max := 10 }
  Jacobian := fun _ _ _ => 2
  Sqrt := Rat.sqrt
  kPi := 22 / 7
  kGF := 1

/-- An amplitude model that returns `AmpPlus3 = 1` and zero for the five other
amplitudes. -/
def stubHAmpl : RSHelicityAmplModelI ℚ Unit where
  Compute := fun _ _ =>
    some { AmpPlus1 := 0, AmpPlus3 := 1, AmpMinus1 := 0, AmpMinus3 := 0,
           Amp0Plus := 0, Amp0Minus := 0 }

/-- An evaluator over `ℚ`: Breit-Wigner weighting on with a weighter that is `1/2`
everywhere, the joining scheme off, every resonance of mass `5/4`. -/
def evQ : ReinSeghalRESPXSec ℚ Unit where
  fZeta := 0
  fOmega := 0
  fMa2 := 1
  fMv2 := 1
  fWghtBW := true
  fFKR := fun _ _ _ _ => ()
  fBaryonResDataSet := { Mass := fun _ => 5 / 4, ResonanceIndex := fun _ => 0 }
  fHAmplModelCC := stubHAmpl
  fHAmplModelNCp := stubHAmpl
  fHAmplModelNCn := stubHAmpl
  fBreitWigner := some { Eval := fun _ _ => 1 / 2 }
  fUsingDisResJoin := false
  fWcut := 999999

/-- A charged-current resonant muon-neutrino interaction on a proton of an iron nucleus
(`Z = 26`, `N = 30`), with `E = 2`, `Mnuc = 1`, `W = 3/2`, `q2 = -7/4` and no bit set. -/
def iQ : Interaction ℚ where
  GetInitialState :=
    { ProbePDGCode := 14, ProbeE := 2,
      GetTarget := { Z := 26, N := 30, StruckNucleonPDGCode := 2212, StruckNucleonMass := 1 } }
  GetProcessInfo := { IsWeak := true, IsResonant := true, IsWeakCC := true }
  GetKinematics := { W := 3 / 2, q2 := -7 / 4 }
  GetExclusiveTag := { Resonance := 1, KnownResonance := true }
  kISkipProcessChk := false
  kISkipKinematicChk := false
  kIAssumeFreeNucleon := false

/-- The interaction `iQ` made non-resonant, with the bit `kISkipProcessChk` set. -/
def iSkipQ : Interaction ℚ :=
  { iQ with
    GetProcessInfo := { IsWeak := true, IsResonant := false, IsWeakCC := true }
    kISkipProcessChk := true }

/-- The interaction `iQ` on a struck neutron instead of a struck proton. -/
def iNeutronQ : Interaction ℚ :=
  { iQ with
    GetInitialState :=
      { ProbePDGCode := 14, ProbeE := 2,
        GetTarget :=
          { Z := 26, N := 30, StruckNucleonPDGCode := 2112, StruckNucleonMass := 1 } } }

/-- The interaction of the deterministic fixture: a muon neutrino of energy `1.0` on a
free-nucleon proton of mass `0.939`, at `W = 1.2` and `q2 = -0.3`. -/
def iFixtureQ : Interaction ℚ where
  GetInitialState :=
    { ProbePDGCode := 14, ProbeE := 1.0,
      GetTarget :=
        { Z := 1, N := 0, StruckNucleonPDGCode := 2212, StruckNucleonMass := 0.939 } }
  GetProcessInfo := { IsWeak := true, IsResonant := true, IsWeakCC := true }
  GetKinematics := { W := 1.2, q2 := -0.3 }
  GetExclusiveTag := { Resonance := 1, KnownResonance := true }
  kISkipProcessChk := false
  kISkipKinematicChk := false
  kIAssumeFreeNucleon := true

/-- The evaluator of the deterministic fixture: the evaluator `evQ` with Breit-Wigner
weighting off and every resonance of mass `1.232`. -/
def evFixtureQ : ReinSeghalRESPXSec ℚ Unit :=
  { evQ with
    fWghtBW := false
    fBreitWigner := none
    fBaryonResDataSet := { Mass := fun _ => 1.232, ResonanceIndex := fun _ => 0 } }

/-- The evaluator `evQ` with the joining scheme on and the cut at `W = 7/5`. -/
def evJoinQ : ReinSeghalRESPXSec ℚ Unit :=
  { evQ with fUsingDisResJoin := true, fWcut := 7 / 5 }

end Fixture

/-! ## General facts on the gates and on `XSec` -/

section Lemmas

variable {α F : Type} [LinearOrderedField α]

/-- `ValidKinematics` only reads the skip bit, the probe energy, the kinematics and the
outputs of the two kinematics utilities. -/
theorem ValidKinematics_congr (ext : Externals α) (i j : Interaction α)
    (hskip : j.kISkipKinematicChk = i.kISkipKinematicChk)
    (hE : j.GetInitialState.ProbeE = i.GetInitialState.ProbeE)
    (hkin : j.GetKinematics = i.GetKinematics)
    (hthr : ext.EnergyThreshold j = ext.EnergyThreshold i)
    (hrange : ∀ kv, ext.KineRange j kv = ext.KineRange i kv) :
    ValidKinematics ext j = ValidKinematics ext i := by
  unfold ValidKinematics
  simp only [hskip, hE, hkin, hthr, hrange]

/-- The value of `XSec` once the three gates are passed. -/
theorem XSec_of_gates (ev : ReinSeghalRESPXSec α F) (ext : Externals α)
    (i : Interaction α) (kps : KinePhaseSpace_t)
    (hp : ValidProcess i = true) (hk : ValidKinematics ext i = true)
    (hj : ¬ (ev.fUsingDisResJoin = true ∧ i.GetKinematics.W ≥ ev.fWcut)) :
    XSec ev ext i kps =
      let target := i.GetInitialState.GetTarget
      let resonance := i.GetExclusiveTag.Resonance
      let kf := kineFactors ext i.GetKinematics.W i.GetKinematics.q2 target.StruckNucleonMass
        i.GetInitialState.ProbeE
      let is_p := pdg.IsProton target.StruckNucleonPDGCode
      match (selectHAmplModel ev i.GetProcessInfo.IsWeakCC is_p).Compute resonance
        (ev.fFKR i.GetKinematics.q2 i.GetKinematics.W target.StruckNucleonMass
          (ev.fBaryonResDataSet.ResonanceIndex resonance)) with
      | none => none
      | some hampl =>
        let hx := helicityXSec ext hampl kf.k (ev.fBaryonResDataSet.Mass resonance)
          target.StruckNucleonMass kf.Q2 i.GetKinematics.q2
        let xsec := combineXSec (pdg.IsNeutrino i.GetInitialState.ProbePDGCode)
          kf.Gf kf.Wf kf.U2 kf.V2 kf.UV hx.xsec_left hx.xsec_right hx.xsec_scalar
        match breitWignerWeight ev resonance i.GetKinematics.W with
        | none => none
        | some bw =>
          if i.kIAssumeFreeNucleon = true then some (bw * xsec)
          else some (bw * xsec * (((if is_p = true then target.Z else target.N : Int)) : α)) := by
  unfold XSec
  simp only [hp, hk, Bool.not_true, Bool.false_eq_true, if_false]
  have hj' : (ev.fUsingDisResJoin && decide (i.GetKinematics.W ≥ ev.fWcut)) = false := by
    cases h : ev.fUsingDisResJoin
    · simp
    · simp only [Bool.true_and, decide_eq_false_iff_not]
      exact fun hW => hj ⟨h, hW⟩
  simp only [hj', Bool.false_eq_true, if_false]

/-- A failed process gate gives the value `0`. -/
theorem XSec_of_not_ValidProcess (ev : ReinSeghalRESPXSec α F) (ext : Externals α)
    (i : Interaction α) (kps : KinePhaseSpace_t) (hp : ValidProcess i = false) :
    XSec ev ext i kps = some 0 := by
  unfold XSec
  simp [hp]

/-- A failed kinematics gate gives the value `0`. -/
theorem XSec_of_not_ValidKinematics (ev : ReinSeghalRESPXSec α F) (ext : Externals α)
    (i : Interaction α) (kps : KinePhaseSpace_t) (hk : ValidKinematics ext i = false) :
    XSec ev ext i kps = some 0 := by
  unfold XSec
  simp [hk]

/-- Under the joining scheme an invariant mass at or above the cut gives the value `0`. -/
theorem XSec_of_join (ev : ReinSeghalRESPXSec α F) (ext : Externals α)
    (i : Interaction α) (kps : KinePhaseSpace_t) (hjoin : ev.fUsingDisResJoin = true)
    (hW : i.GetKinematics.W ≥ ev.fWcut) :
    XSec ev ext i kps = some 0 := by
  unfold XSec
  by_cases hp : ValidProcess i = true
  · by_cases hk : ValidKinematics ext i = true
    · simp [hp, hk, hjoin, hW]
    · simp [hp, hk]
  · simp [hp]

/-- The phase-space variable does not enter the value of `XSec`. -/
theorem XSec_kps_irrelevant (ev : ReinSeghalRESPXSec α F) (ext : Externals α)
    (i : Interaction α) (kps kps' : KinePhaseSpace_t) :
    XSec ev ext i kps = XSec ev ext i kps' := by
  unfold XSec
  rfl

/-- With the bit `kIAssumeFreeNucleon` unset, `XSec` is the free-nucleon value times the
number of scattering centers, when the kinematics utilities do not see the bit. -/
theorem XSec_eq_map_free (ev : ReinSeghalRESPXSec α F) (ext : Externals α)
    (i : Interaction α) (kps : KinePhaseSpace_t)
    (hfree : i.kIAssumeFreeNucleon = false)
    (hthr : ext.EnergyThreshold (withAssumeFreeNucleon i true) = ext.EnergyThreshold i)
    (hrange : ∀ kv, ext.KineRange (withAssumeFreeNucleon i true) kv = ext.KineRange i kv) :
    XSec ev ext i kps =
      (XSec ev ext (withAssumeFreeNucleon i true) kps).map
        (fun x => x * (((if pdg.IsProton i.GetInitialState.GetTarget.StruckNucleonPDGCode = true
          then i.GetInitialState.GetTarget.Z else i.GetInitialState.GetTarget.N : Int)) : α)) := by
  have hvp : ValidProcess (withAssumeFreeNucleon i true) = ValidProcess i := rfl
  have hvk : ValidKinematics ext (withAssumeFreeNucleon i true) = ValidKinematics ext i :=
    ValidKinematics_congr ext i _ rfl rfl rfl hthr hrange
  by_cases hp : ValidProcess i = true
  · by_cases hk : ValidKinematics ext i = true
    · by_cases hj : ev.fUsingDisResJoin = true ∧ i.GetKinematics.W ≥ ev.fWcut
      · rw [XSec_of_join ev ext i kps hj.1 hj.2,
          XSec_of_join ev ext (withAssumeFreeNucleon i true) kps hj.1 hj.2]
        simp
      · rw [XSec_of_gates ev ext i kps hp hk hj,
          XSec_of_gates ev ext (withAssumeFreeNucleon i true) kps (hvp ▸ hp) (hvk ▸ hk) hj]
        simp only [withAssumeFreeNucleon, hfree]
        split
        · rfl
        · split
          · rfl
          · simp
    · have hk' : ValidKinematics ext i = false := by simpa using hk
      rw [XSec_of_not_ValidKinematics ev ext i kps hk',
        XSec_of_not_ValidKinematics ev ext _ kps (hvk ▸ hk')]
      simp
  · have hp' : ValidProcess i = false := by simpa using hp
    rw [XSec_of_not_ValidProcess ev ext i kps hp',
      XSec_of_not_ValidProcess ev ext _ kps (hvp ▸ hp')]
    simp

/-- A neutron is not a proton. -/
theorem pdg.IsProton_eq_false_of_IsNeutron (pdgc : Int) (h : pdg.IsNeutron pdgc = true) :
    pdg.IsProton pdgc = false := by
  simp only [pdg.IsNeutron, pdg.kPdgNeutron, beq_iff_eq] at h
  subst h
  decide

/-- An antineutrino is not a neutrino. -/
theorem pdg.IsNeutrino_eq_false_of_IsAntiNeutrino (pdgc : Int)
    (h : pdg.IsAntiNeutrino pdgc = true) : pdg.IsNeutrino pdgc = false := by
  simp only [pdg.IsAntiNeutrino, Bool.or_eq_true, beq_iff_eq] at h
  rcases h with (h | h) | h <;> subst h <;> decide

/-- The rational square root of `4`. -/
theorem Rat_sqrt_four : Rat.sqrt 4 = 2 := by
  rw [show (4 : ℚ) = 2 * 2 by norm_num, Rat.sqrt_eq]
  norm_num

/-- The interaction `iQ` passes the kinematics gate of `extQ`. -/
theorem ValidKinematics_iQ : ValidKinematics extQ iQ = true := by
  norm_num [ValidKinematics, extQ, iQ, utils.math.IsWithinLimits]

/-- The value of `XSec` at `iQ`, for every phase-space variable. -/
theorem XSec_iQ_value (kps : KinePhaseSpace_t) :
    XSec evQ extQ iQ kps = some (773955 / 1441792) := by
  have hp : ValidProcess iQ = true := by decide
  rw [XSec_of_gates evQ extQ iQ kps hp ValidKinematics_iQ (by simp [evQ])]
  simp [selectHAmplModel, evQ, iQ, stubHAmpl, helicityXSec, combineXSec, kineFactors,
    breitWignerWeight, extQ, pdg.IsProton, pdg.IsNeutrino, pdg.kPdgProton, Externals.kGF2,
    Externals.kPi2]
  norm_num [Rat_sqrt_four]

/-- The value of `XSec` at `iSkipQ`, for every phase-space variable. -/
theorem XSec_iSkipQ_value (kps : KinePhaseSpace_t) :
    XSec evQ extQ iSkipQ kps = some (773955 / 1441792) := by
  have hp : ValidProcess iSkipQ = true := by decide
  have hk : ValidKinematics extQ iSkipQ = true := ValidKinematics_iQ
  rw [XSec_of_gates evQ extQ iSkipQ kps hp hk (by simp [evQ])]
  simp [selectHAmplModel, evQ, iQ, iSkipQ, stubHAmpl, helicityXSec, combineXSec, kineFactors,
    breitWignerWeight, extQ, pdg.IsProton, pdg.IsNeutrino, pdg.kPdgProton, Externals.kGF2,
    Externals.kPi2]
  norm_num [Rat_sqrt_four]

/-- The factor `k` of `kineFactors` in closed form. -/
theorem kineFactors_k (ext : Externals α) (W q2 Mnuc E : α) :
    (kineFactors ext W q2 Mnuc E).k = (W ^ 2 - Mnuc ^ 2) / (2 * Mnuc) := by
  simp only [kineFactors]
  have h05 : (0.5 : α) = 1 / 2 := by norm_num
  rw [h05]
  by_cases hM : Mnuc = 0
  · simp [hM]
  · field_simp

/-- The factor `v` of `kineFactors` in closed form. -/
theorem kineFactors_v (ext : Externals α) (W q2 Mnuc E : α) :
    (kineFactors ext W q2 Mnuc E).v =
      (W ^ 2 - Mnuc ^ 2) / (2 * Mnuc) - q2 / (2 * Mnuc) := by
  have hk := kineFactors_k ext W q2 Mnuc E
  have hv : (kineFactors ext W q2 Mnuc E).v =
      (kineFactors ext W q2 Mnuc E).k - 0.5 * q2 / Mnuc := rfl
  rw [hv, hk]
  have h05 : (0.5 : α) = 1 / 2 := by norm_num
  rw [h05]
  by_cases hM : Mnuc = 0
  · simp [hM]
  · field_simp

/-- The factor `U` of `kineFactors` in closed form. -/
theorem kineFactors_U (ext : Externals α) (W q2 Mnuc E : α) :
    (kineFactors ext W q2 Mnuc E).U =
      (E + (E - (kineFactors ext W q2 Mnuc E).v) + ext.Sqrt ((kineFactors ext W q2 Mnuc E).v ^ 2 - q2))
        / (2 * E) := by
  have hU : (kineFactors ext W q2 Mnuc E).U =
      0.5 * (E + (E - (kineFactors ext W q2 Mnuc E).v) +
        ext.Sqrt ((kineFactors ext W q2 Mnuc E).v ^ 2 - q2)) / E := rfl
  rw [hU]
  have h05 : (0.5 : α) = 1 / 2 := by norm_num
  rw [h05]
  by_cases hE : E = 0
  · simp [hE]
  · field_simp

/-- The combined cross section of lines 142-171 for a neutrino whose only non-zero
amplitude is `AmpPlus3 = 1` is the closed form. -/
theorem combineXSec_single_amplitude (ext : Externals α) (W q2 Mnuc Mres E : α) :
    combineXSec true (kineFactors ext W q2 Mnuc E).Gf (kineFactors ext W q2 Mnuc E).Wf
      (kineFactors ext W q2 Mnuc E).U2 (kineFactors ext W q2 Mnuc E).V2
      (kineFactors ext W q2 Mnuc E).UV
      (helicityXSec ext ⟨0, 1, 0, 0, 0, 0⟩ (kineFactors ext W q2 Mnuc E).k Mres Mnuc
        (kineFactors ext W q2 Mnuc E).Q2 q2).xsec_left
      (helicityXSec ext ⟨0, 1, 0, 0, 0, 0⟩ (kineFactors ext W q2 Mnuc E).k Mres Mnuc
        (kineFactors ext W q2 Mnuc E).Q2 q2).xsec_right
      (helicityXSec ext ⟨0, 1, 0, 0, 0, 0⟩ (kineFactors ext W q2 Mnuc E).k Mres Mnuc
        (kineFactors ext W q2 Mnuc E).Q2 q2).xsec_scalar
      = closedFormXSec ext W q2 Mnuc Mres E := by
  have hk := kineFactors_k ext W q2 Mnuc E
  have hv := kineFactors_v ext W q2 Mnuc E
  have hU := kineFactors_U ext W q2 Mnuc E
  have hQ2 : (kineFactors ext W q2 Mnuc E).Q2 = (kineFactors ext W q2 Mnuc E).v ^ 2 - q2 := rfl
  have hWf : (kineFactors ext W q2 Mnuc E).Wf =
      (-q2 / (kineFactors ext W q2 Mnuc E).Q2) * (W / Mnuc) * (kineFactors ext W q2 Mnuc E).k :=
    rfl
  have hGf : (kineFactors ext W q2 Mnuc E).Gf = ext.kGF ^ 2 / (4 * ext.kPi ^ 2) := rfl
  have hU2 : (kineFactors ext W q2 Mnuc E).U2 = (kineFactors ext W q2 Mnuc E).U ^ 2 := rfl
  simp only [combineXSec, if_true, helicityXSec, closedFormXSec]
  rw [hGf, hWf, hU2, hU, hQ2, hv, hk]
  ring

/-- The closed form equals the reduced closed form when `k` is non-zero. -/
theorem closedFormXSec_eq_reduced (ext : Externals α) (W q2 Mnuc Mres E : α)
    (hk : (W ^ 2 - Mnuc ^ 2) / (2 * Mnuc) ≠ 0) :
    closedFormXSec ext W q2 Mnuc Mres E = reducedClosedFormXSec ext W q2 Mnuc Mres E := by
  simp only [closedFormXSec, reducedClosedFormXSec]
  have h05 : (0.5 : α) = 1 / 2 := by norm_num
  rw [h05]
  have hM : Mnuc ≠ 0 := by
    intro h
    apply hk
    simp [h]
  generalize hkk : (W ^ 2 - Mnuc ^ 2) / (2 * Mnuc) = k at hk ⊢
  generalize ext.Sqrt ((k - q2 / (2 * Mnuc)) ^ 2 - q2) = Q
  generalize (k - q2 / (2 * Mnuc)) ^ 2 - q2 = Q2
  by_cases hpi : ext.kPi = 0
  · simp [hpi]
  · by_cases hQ2 : Q2 = 0
    · simp [hQ2]
    · by_cases hE : E = 0
      · simp [hE]
      · field_simp
        ring

/-- What `LoadConfig` leaves in the evaluator for the two toggles and the cut. -/
theorem LoadConfig_fields (fConfig : Registry α) (gc : GlobalParameterList α)
    (algs : SubAlgorithms α F) (fkrConfigure : α → α → α → α → α → (α → α → α → Int → F))
    (ev : ReinSeghalRESPXSec α F) (h : LoadConfig fConfig gc algs fkrConfigure = some ev) :
    ev.fWghtBW = GetBoolDef fConfig.weight_with_breit_wigner true ∧
    (ev.fWghtBW = true → ev.fBreitWigner.isSome = true) ∧
    (ev.fWghtBW = false → ev.fBreitWigner = none) ∧
    ev.fUsingDisResJoin = GetBoolDef fConfig.use_dis_res_joining_scheme false ∧
    (ev.fUsingDisResJoin = true → ev.fWcut = GetDoubleDef fConfig.Wcut gc.Wcut) ∧
    (ev.fUsingDisResJoin = false → ev.fWcut = 999999) := by
  unfold LoadConfig at h
  cases hds : algs.baryonres_dataset with
  | none => simp [hds] at h
  | some ds =>
    cases hcc : algs.RSHelicityAmplModelCC with
    | none => simp [hds, hcc] at h
    | some cc =>
      cases hp : algs.RSHelicityAmplModelNCp with
      | none => simp [hds, hcc, hp] at h
      | some ncp =>
        cases hn : algs.RSHelicityAmplModelNCn with
        | none => simp [hds, hcc, hp, hn] at h
        | some ncn =>
          cases hw : GetBoolDef fConfig.weight_with_breit_wigner true <;>
            cases hj : GetBoolDef fConfig.use_dis_res_joining_scheme false <;>
            cases hb : algs.breit_wigner <;>
            simp [hds, hcc, hp, hn, hw, hj, hb] at h <;>
            subst h <;> simp [hw, hj]

/-- An evaluator configured with the joining scheme on returns `0` at and above the
configured `Wcut`. -/
theorem XSec_zero_above_configured_Wcut (fConfig : Registry α) (gc : GlobalParameterList α)
    (algs : SubAlgorithms α F) (fkrConfigure : α → α → α → α → α → (α → α → α → Int → F))
    (ev : ReinSeghalRESPXSec α F) (h : LoadConfig fConfig gc algs fkrConfigure = some ev)
    (ext : Externals α) (i : Interaction α) (kps : KinePhaseSpace_t)
    (hjoin : GetBoolDef fConfig.use_dis_res_joining_scheme false = true)
    (hW : i.GetKinematics.W ≥ GetDoubleDef fConfig.Wcut gc.Wcut) :
    XSec ev ext i kps = some 0 := by
  obtain ⟨-, -, -, h1, h2, -⟩ := LoadConfig_fields fConfig gc algs fkrConfigure ev h
  have hj : ev.fUsingDisResJoin = true := by rw [h1, hjoin]
  exact XSec_of_join ev ext i kps hj (by rw [h2 hj]; exact hW)

end Lemmas

section LemmasPlain

variable {α F : Type}

/-- The model selected in an evaluator with exchanged helicities. -/
theorem selectHAmplModel_withSwappedAmpl (ev : ReinSeghalRESPXSec α F) (is_CC is_p : Bool) :
    selectHAmplModel (withSwappedAmpl ev) is_CC is_p =
      swapModel (selectHAmplModel ev is_CC is_p) := by
  cases is_CC <;> cases is_p <;> rfl

/-- The process gate does not tell a neutrino from an antineutrino. -/
theorem ValidProcess_withProbe (i : Interaction α) (nu nubar : Int)
    (hnu : pdg.IsNeutrino nu = true) (hnubar : pdg.IsAntiNeutrino nubar = true) :
    ValidProcess (withProbe i nubar) = ValidProcess (withProbe i nu) := by
  simp [ValidProcess, withProbe, hnu, hnubar]

end LemmasPlain

/-! ## The claims -/

section Claims

variable {α F : Type} [LinearOrderedField α]

/-- C1: with the bit `kIAssumeFreeNucleon` unset, and the kinematics utilities giving the
same threshold and ranges whether the bit is set or not, `XSec` returns `Z` times the value
it returns for the same interaction with the bit set when the struck nucleon is a proton,
and `N` times that value when the struck nucleon is a neutron. -/
theorem XSec_nuclear_scaling (ev : ReinSeghalRESPXSec α F) (ext : Externals α)
    (i : Interaction α) (kps : KinePhaseSpace_t)
    (hfree : i.kIAssumeFreeNucleon = false)
    (hthr : ext.EnergyThreshold (withAssumeFreeNucleon i true) = ext.EnergyThreshold i)
    (hrange : ∀ kv, ext.KineRange (withAssumeFreeNucleon i true) kv = ext.KineRange i kv) :
    (pdg.IsProton i.GetInitialState.GetTarget.StruckNucleonPDGCode = true →
      XSec ev ext i kps =
        (XSec ev ext (withAssumeFreeNucleon i true) kps).map
          (fun x => (i.GetInitialState.GetTarget.Z : α) * x)) ∧
    (pdg.IsNeutron i.GetInitialState.GetTarget.StruckNucleonPDGCode = true →
      XSec ev ext i kps =
        (XSec ev ext (withAssumeFreeNucleon i true) kps).map
          (fun x => (i.GetInitialState.GetTarget.N : α) * x)) := by
  have h := XSec_eq_map_free ev ext i kps hfree hthr hrange
  constructor
  · intro hp
    rw [h]
    simp only [hp, if_true, mul_comm]
  · intro hn
    rw [h]
    simp only [pdg.IsProton_eq_false_of_IsNeutron _ hn, Bool.false_eq_true, if_false, mul_comm]

/-- Witness of C1: the proton interaction `iQ` and the neutron interaction `iNeutronQ`. -/
theorem XSec_nuclear_scaling_witness :
    (iQ.kIAssumeFreeNucleon = false ∧
      pdg.IsProton iQ.GetInitialState.GetTarget.StruckNucleonPDGCode = true ∧
      XSec evQ extQ iQ KinePhaseSpace_t.kPSWQ2fE =
        (XSec evQ extQ (withAssumeFreeNucleon iQ true) KinePhaseSpace_t.kPSWQ2fE).map
          (fun x => ((iQ.GetInitialState.GetTarget.Z : Int) : ℚ) * x)) ∧
    (iNeutronQ.kIAssumeFreeNucleon = false ∧
      pdg.IsNeutron iNeutronQ.GetInitialState.GetTarget.StruckNucleonPDGCode = true ∧
      XSec evQ extQ iNeutronQ KinePhaseSpace_t.kPSWQ2fE =
        (XSec evQ extQ (withAssumeFreeNucleon iNeutronQ true) KinePhaseSpace_t.kPSWQ2fE).map
          (fun x => ((iNeutronQ.GetInitialState.GetTarget.N : Int) : ℚ) * x)) :=
  ⟨⟨rfl, by decide,
      (XSec_nuclear_scaling evQ extQ iQ _ rfl rfl (fun _ => rfl)).1 (by decide)⟩,
    ⟨rfl, by decide,
      (XSec_nuclear_scaling evQ extQ iNeutronQ _ rfl rfl (fun _ => rfl)).2 (by decide)⟩⟩

/-- C2: two interactions that have the bit `kIAssumeFreeNucleon` set and differ only in the
proton count and the neutron count of the target, for which the kinematics utilities give
the same threshold and ranges, have the same `XSec`. -/
theorem XSec_free_nucleon_independent_of_ZN (ev : ReinSeghalRESPXSec α F)
    (ext : Externals α) (i : Interaction α) (kps : KinePhaseSpace_t) (Z N : Int)
    (hfree : i.kIAssumeFreeNucleon = true)
    (hthr : ext.EnergyThreshold (withZN i Z N) = ext.EnergyThreshold i)
    (hrange : ∀ kv, ext.KineRange (withZN i Z N) kv = ext.KineRange i kv) :
    XSec ev ext (withZN i Z N) kps = XSec ev ext i kps := by
  have hvp : ValidProcess (withZN i Z N) = ValidProcess i := rfl
  have hvk : ValidKinematics ext (withZN i Z N) = ValidKinematics ext i :=
    ValidKinematics_congr ext i _ rfl rfl rfl hthr hrange
  by_cases hp : ValidProcess i = true
  · by_cases hk : ValidKinematics ext i = true
    · by_cases hj : ev.fUsingDisResJoin = true ∧ i.GetKinematics.W ≥ ev.fWcut
      · rw [XSec_of_join ev ext i kps hj.1 hj.2,
          XSec_of_join ev ext (withZN i Z N) kps hj.1 hj.2]
      · rw [XSec_of_gates ev ext i kps hp hk hj,
          XSec_of_gates ev ext (withZN i Z N) kps (hvp ▸ hp) (hvk ▸ hk) hj]
        simp only [withZN, hfree, if_true]
    · have hk' : ValidKinematics ext i = false := by simpa using hk
      rw [XSec_of_not_ValidKinematics ev ext i kps hk',
        XSec_of_not_ValidKinematics ev ext _ kps (hvk ▸ hk')]
  · have hp' : ValidProcess i = false := by simpa using hp
    rw [XSec_of_not_ValidProcess ev ext i kps hp',
      XSec_of_not_ValidProcess ev ext _ kps (hvp ▸ hp')]

/-- Witness of C2: the interaction `iQ` with the bit set, on iron and on carbon. -/
theorem XSec_free_nucleon_independent_of_ZN_witness :
    (withAssumeFreeNucleon iQ true).kIAssumeFreeNucleon = true ∧
    XSec evQ extQ (withZN (withAssumeFreeNucleon iQ true) 6 6) KinePhaseSpace_t.kPSWQ2fE =
      XSec evQ extQ (withAssumeFreeNucleon iQ true) KinePhaseSpace_t.kPSWQ2fE :=
  ⟨rfl, XSec_free_nucleon_independent_of_ZN evQ extQ (withAssumeFreeNucleon iQ true) _ 6 6
    rfl rfl (fun _ => rfl)⟩

/-- C3: at the interaction `iQ`, which passes the three gates, with a Jacobian that
returns `2`, `XSec` for a non-native phase-space variable returns the very value it returns
for the native variable, a non-zero value, and not twice that value. -/
theorem XSec_jacobian_has_no_effect_at_iQ :
    ValidProcess iQ = true ∧ ValidKinematics extQ iQ = true ∧
    evQ.fUsingDisResJoin = false ∧
    extQ.Jacobian iQ KinePhaseSpace_t.kPSWQ2fE (KinePhaseSpace_t.kPSOther 0) = 2 ∧
    XSec evQ extQ iQ KinePhaseSpace_t.kPSWQ2fE = some (773955 / 1441792) ∧
    XSec evQ extQ iQ (KinePhaseSpace_t.kPSOther 0) = some (773955 / 1441792) ∧
    XSec evQ extQ iQ (KinePhaseSpace_t.kPSOther 0) ≠
      (XSec evQ extQ iQ KinePhaseSpace_t.kPSWQ2fE).map (fun x => 2 * x) := by
  refine ⟨by decide, ValidKinematics_iQ, rfl, rfl, XSec_iQ_value _, XSec_iQ_value _, ?_⟩
  rw [XSec_iQ_value, XSec_iQ_value]
  norm_num

/-- Counterexample of C4: the interaction `iSkipQ` is not resonant and `XSec` does not
return `0` for it. -/
theorem XSec_nonresonant_skip_nonzero :
    (iSkipQ.GetProcessInfo.IsResonant = false ∨ iSkipQ.GetProcessInfo.IsWeak = false) ∧
    XSec evQ extQ iSkipQ KinePhaseSpace_t.kPSWQ2fE ≠ some 0 := by
  refine ⟨Or.inl rfl, ?_⟩
  rw [XSec_iSkipQ_value]
  norm_num

/-- C4, amended: for every interaction with the bit `kISkipProcessChk` unset whose process
is not resonant or not weak, `XSec` returns `0`, whatever the kinematics, the other bits and
the evaluator are. -/
theorem XSec_zero_of_nonresonant_or_nonweak (ev : ReinSeghalRESPXSec α F)
    (ext : Externals α) (i : Interaction α) (kps : KinePhaseSpace_t)
    (hskip : i.kISkipProcessChk = false)
    (h : i.GetProcessInfo.IsResonant = false ∨ i.GetProcessInfo.IsWeak = false) :
    XSec ev ext i kps = some 0 := by
  apply XSec_of_not_ValidProcess
  unfold ValidProcess
  rcases h with h | h
  · simp [hskip, h]
  · simp [hskip, h]

/-- Witness of C4, amended: the interaction `iSkipQ` with the skip bit cleared. -/
theorem XSec_zero_of_nonresonant_or_nonweak_witness :
    ({ iSkipQ with kISkipProcessChk := false } : Interaction ℚ).kISkipProcessChk = false ∧
    ({ iSkipQ with kISkipProcessChk := false } : Interaction ℚ).GetProcessInfo.IsResonant
      = false ∧
    XSec evQ extQ { iSkipQ with kISkipProcessChk := false } (KinePhaseSpace_t.kPSOther 3)
      = some 0 :=
  ⟨rfl, rfl, XSec_zero_of_nonresonant_or_nonweak evQ extQ _ _ rfl (Or.inl rfl)⟩

/-- C6: for every evaluator with the joining scheme on and every interaction whose
invariant mass is at or above the cut `fWcut`, `XSec` returns `0`, whatever the bits, the
process, the probe, the target and `q2` are and whatever the two other gates decide. -/
theorem XSec_zero_above_Wcut (ev : ReinSeghalRESPXSec α F) (ext : Externals α)
    (i : Interaction α) (kps : KinePhaseSpace_t) (hjoin : ev.fUsingDisResJoin = true)
    (hW : i.GetKinematics.W ≥ ev.fWcut) :
    XSec ev ext i kps = some 0 :=
  XSec_of_join ev ext i kps hjoin hW

/-- Witness of C6: the interaction `iQ`, of invariant mass `3/2`, under a cut at `7/5`. -/
theorem XSec_zero_above_Wcut_witness :
    evJoinQ.fUsingDisResJoin = true ∧ iQ.GetKinematics.W ≥ evJoinQ.fWcut ∧
    XSec evJoinQ extQ iQ KinePhaseSpace_t.kPSWQ2fE = some 0 :=
  ⟨rfl, by norm_num [iQ, evJoinQ], XSec_zero_above_Wcut evJoinQ extQ iQ _ rfl
    (by norm_num [iQ, evJoinQ])⟩

/-- C8: for every interaction and phase-space variable, `XSec` of an evaluator with
Breit-Wigner weighting off equals `XSec` of the evaluator that differs from it only in
having the weighting on with a weighter that returns `1` for every resonance and every
`W`. -/
theorem XSec_no_weight_eq_unit_weight (ev : ReinSeghalRESPXSec α F) (ext : Externals α)
    (i : Interaction α) (kps : KinePhaseSpace_t) (bw : BreitWignerI α)
    (hoff : ev.fWghtBW = false) (hbw : ∀ resonance W, bw.Eval resonance W = 1) :
    XSec ev ext i kps = XSec (withBreitWigner ev bw) ext i kps := by
  have h : ∀ r W, breitWignerWeight (withBreitWigner ev bw) r W = breitWignerWeight ev r W := by
    intro r W
    simp [breitWignerWeight, withBreitWigner, hoff, hbw]
  unfold XSec
  simp only [h]
  rfl

/-- Witness of C8: the fixture evaluator, whose weighting is off, and the unit weighter. -/
theorem XSec_no_weight_eq_unit_weight_witness :
    evFixtureQ.fWghtBW = false ∧
    XSec evFixtureQ extQ iQ KinePhaseSpace_t.kPSWQ2fE =
      XSec (withBreitWigner evFixtureQ { Eval := fun _ _ => 1 }) extQ iQ
        KinePhaseSpace_t.kPSWQ2fE :=
  ⟨rfl, XSec_no_weight_eq_unit_weight evFixtureQ extQ iQ _ { Eval := fun _ _ => 1 } rfl
    (fun _ _ => rfl)⟩

/-- C10: for `Mnuc > 0`, `W > Mnuc`, `q2 < 0`, `Mres > 0` and `E > 0` the kinematic factors
of `XSec` have `k = (W^2 - Mnuc^2) / (2 Mnuc) > 0` and `Q2 = v^2 - q2 > 0`, the square root
`Q` is taken of the positive number `Q2`, and each of the divisors `Mnuc`, `Q2`, `k`, `q2`,
`Mres`, `E` is non-zero. -/
theorem kineFactors_domain (ext : Externals α) (W q2 Mnuc Mres E : α)
    (hM : 0 < Mnuc) (hW : Mnuc < W) (hq : q2 < 0) (hres : 0 < Mres) (hE : 0 < E) :
    (kineFactors ext W q2 Mnuc E).k = (W ^ 2 - Mnuc ^ 2) / (2 * Mnuc) ∧
    0 < (kineFactors ext W q2 Mnuc E).k ∧
    (kineFactors ext W q2 Mnuc E).v = (kineFactors ext W q2 Mnuc E).k - q2 / (2 * Mnuc) ∧
    (kineFactors ext W q2 Mnuc E).Q2 = (kineFactors ext W q2 Mnuc E).v ^ 2 - q2 ∧
    0 < (kineFactors ext W q2 Mnuc E).Q2 ∧
    (kineFactors ext W q2 Mnuc E).Q = ext.Sqrt ((kineFactors ext W q2 Mnuc E).Q2) ∧
    Mnuc ≠ 0 ∧ (kineFactors ext W q2 Mnuc E).Q2 ≠ 0 ∧ (kineFactors ext W q2 Mnuc E).k ≠ 0 ∧
    q2 ≠ 0 ∧ Mres ≠ 0 ∧ E ≠ 0 := by
  have hk_eq : (kineFactors ext W q2 Mnuc E).k = (W ^ 2 - Mnuc ^ 2) / (2 * Mnuc) :=
    kineFactors_k ext W q2 Mnuc E
  have hv_eq : (kineFactors ext W q2 Mnuc E).v =
      (kineFactors ext W q2 Mnuc E).k - q2 / (2 * Mnuc) := by
    rw [kineFactors_v, hk_eq]
  have hsq : Mnuc ^ 2 < W ^ 2 := by nlinarith
  have hk : 0 < (kineFactors ext W q2 Mnuc E).k := by
    rw [hk_eq]
    apply div_pos
    · linarith
    · linarith
  have hQ2_eq : (kineFactors ext W q2 Mnuc E).Q2 = (kineFactors ext W q2 Mnuc E).v ^ 2 - q2 :=
    rfl
  have hQ2 : 0 < (kineFactors ext W q2 Mnuc E).Q2 := by
    rw [hQ2_eq]
    have := sq_nonneg (kineFactors ext W q2 Mnuc E).v
    linarith
  exact ⟨hk_eq, hk, hv_eq, hQ2_eq, hQ2, rfl, hM.ne', hQ2.ne', hk.ne', hq.ne, hres.ne', hE.ne'⟩

/-- Witness of C10: the values of the deterministic fixture. -/
theorem kineFactors_domain_witness :
    0 < (kineFactors extQ 1.2 (-0.3) 0.939 1.0).k ∧
    0 < (kineFactors extQ 1.2 (-0.3) 0.939 1.0).Q2 :=
  have h := kineFactors_domain extQ 1.2 (-0.3) 0.939 1.232 1.0 (by norm_num) (by norm_num)
    (by norm_num) (by norm_num) (by norm_num)
  ⟨h.2.1, h.2.2.2.2.1⟩

/-- C7: the combination of the helicity cross sections `(L, R, S)` is
`Gf*Wf*(U^2*L + V^2*R + 2*U*V*S)` for a neutrino and `Gf*Wf*(V^2*L + U^2*R + 2*U*V*S)` for
an antineutrino; exchanging the plus and minus amplitudes exchanges `L` and `R` and keeps
`S`; hence `XSec` for an antineutrino equals `XSec` for a neutrino with the plus and minus
amplitudes exchanged, the kinematics utilities giving the same threshold and ranges for both
probes. -/
theorem XSec_antineutrino_swaps_left_right (ev : ReinSeghalRESPXSec α F)
    (ext : Externals α) (i : Interaction α) (kps : KinePhaseSpace_t) (nu nubar : Int)
    (hnu : pdg.IsNeutrino nu = true) (hnubar : pdg.IsAntiNeutrino nubar = true)
    (hthr : ext.EnergyThreshold (withProbe i nubar) = ext.EnergyThreshold (withProbe i nu))
    (hrange : ∀ kv, ext.KineRange (withProbe i nubar) kv = ext.KineRange (withProbe i nu) kv) :
    (∀ Gf Wf U V L R S : α,
      combineXSec (pdg.IsNeutrino nu) Gf Wf (U ^ 2) (V ^ 2) (U * V) L R S =
        Gf * Wf * (U ^ 2 * L + V ^ 2 * R + 2 * U * V * S)) ∧
    (∀ Gf Wf U V L R S : α,
      combineXSec (pdg.IsNeutrino nubar) Gf Wf (U ^ 2) (V ^ 2) (U * V) L R S =
        Gf * Wf * (V ^ 2 * L + U ^ 2 * R + 2 * U * V * S)) ∧
    (∀ (hampl : RSHelicityAmpl α) (k Mres Mnuc Q2 q2 : α),
      (helicityXSec ext (swapPlusMinus hampl) k Mres Mnuc Q2 q2).xsec_left =
        (helicityXSec ext hampl k Mres Mnuc Q2 q2).xsec_right ∧
      (helicityXSec ext (swapPlusMinus hampl) k Mres Mnuc Q2 q2).xsec_right =
        (helicityXSec ext hampl k Mres Mnuc Q2 q2).xsec_left ∧
      (helicityXSec ext (swapPlusMinus hampl) k Mres Mnuc Q2 q2).xsec_scalar =
        (helicityXSec ext hampl k Mres Mnuc Q2 q2).xsec_scalar) ∧
    XSec ev ext (withProbe i nubar) kps = XSec (withSwappedAmpl ev) ext (withProbe i nu) kps := by
  have hnn : pdg.IsNeutrino nubar = false := pdg.IsNeutrino_eq_false_of_IsAntiNeutrino _ hnubar
  refine ⟨?_, ?_, ?_, ?_⟩
  · intro Gf Wf U V L R S
    simp only [combineXSec, hnu, if_true, mul_assoc]
  · intro Gf Wf U V L R S
    simp only [combineXSec, hnn, Bool.false_eq_true, if_false, mul_assoc]
  · intro hampl k Mres Mnuc Q2 q2
    exact ⟨rfl, rfl, rfl⟩
  · have hvp := ValidProcess_withProbe i nu nubar hnu hnubar
    have hvk : ValidKinematics ext (withProbe i nubar) = ValidKinematics ext (withProbe i nu) :=
      ValidKinematics_congr ext _ _ rfl rfl rfl hthr hrange
    by_cases hp : ValidProcess (withProbe i nu) = true
    · by_cases hk : ValidKinematics ext (withProbe i nu) = true
      · by_cases hj : ev.fUsingDisResJoin = true ∧ i.GetKinematics.W ≥ ev.fWcut
        · rw [XSec_of_join ev ext (withProbe i nubar) kps hj.1 hj.2,
            XSec_of_join (withSwappedAmpl ev) ext (withProbe i nu) kps hj.1 hj.2]
        · rw [XSec_of_gates ev ext (withProbe i nubar) kps (hvp ▸ hp) (hvk ▸ hk) hj,
            XSec_of_gates (withSwappedAmpl ev) ext (withProbe i nu) kps hp hk hj]
          have hb : ∀ r W, breitWignerWeight (withSwappedAmpl ev) r W =
              breitWignerWeight ev r W := fun _ _ => rfl
          have hf : (withSwappedAmpl ev).fFKR = ev.fFKR := rfl
          have hd : (withSwappedAmpl ev).fBaryonResDataSet = ev.fBaryonResDataSet := rfl
          simp only [selectHAmplModel_withSwappedAmpl, hb, hf, hd]
          simp only [withProbe, swapModel, hnu, hnn]
          cases (selectHAmplModel ev i.GetProcessInfo.IsWeakCC
            (pdg.IsProton i.GetInitialState.GetTarget.StruckNucleonPDGCode)).Compute
            i.GetExclusiveTag.Resonance
            (ev.fFKR i.GetKinematics.q2 i.GetKinematics.W
              i.GetInitialState.GetTarget.StruckNucleonMass
              (ev.fBaryonResDataSet.ResonanceIndex i.GetExclusiveTag.Resonance)) with
          | none => rfl
          | some hampl =>
            have hc : ∀ Gf Wf U2 V2 UV L R S : α,
                combineXSec false Gf Wf U2 V2 UV L R S = combineXSec true Gf Wf U2 V2 UV R L S := by
              intro Gf Wf U2 V2 UV L R S
              simp only [combineXSec, Bool.false_eq_true, if_false, if_true]
              ring
            simp only [Option.map_some', hc]
            rfl
      · have hk' : ValidKinematics ext (withProbe i nu) = false := by simpa using hk
        rw [XSec_of_not_ValidKinematics ev ext _ kps (hvk ▸ hk'),
          XSec_of_not_ValidKinematics _ ext _ kps hk']
    · have hp' : ValidProcess (withProbe i nu) = false := by simpa using hp
      rw [XSec_of_not_ValidProcess ev ext _ kps (hvp ▸ hp'),
        XSec_of_not_ValidProcess _ ext _ kps hp']

/-- Witness of C7: the muon neutrino and the muon antineutrino on the interaction `iQ`. -/
theorem XSec_antineutrino_swaps_left_right_witness :
    pdg.IsNeutrino 14 = true ∧ pdg.IsAntiNeutrino (-14) = true ∧
    XSec evQ extQ (withProbe iQ (-14)) KinePhaseSpace_t.kPSWQ2fE =
      XSec (withSwappedAmpl evQ) extQ (withProbe iQ 14) KinePhaseSpace_t.kPSWQ2fE :=
  ⟨by decide, by decide,
    (XSec_antineutrino_swaps_left_right evQ extQ iQ KinePhaseSpace_t.kPSWQ2fE 14 (-14)
      (by decide) (by decide) rfl (fun _ => rfl)).2.2.2⟩

/-- C9: for a neutrino interaction that passes the three gates, with Breit-Wigner weight
`1`, the bit `kIAssumeFreeNucleon` set and an amplitude bundle with `AmpPlus3 = 1` and the
five other amplitudes `0`, `XSec` returns the closed form
`Gf*Wf*U^2*0.5*(pi/k)*(Mres/Mnuc)`; when `k` is non-zero this is the reduced closed form
`(GF^2/(8 pi))*(-q2/Q2)*(W*Mres/Mnuc^2)*U^2`; in particular at `W = 1.2`, `q2 = -0.3`,
`Mnuc = 0.939`, `Mres = 1.232`, `E = 1.0` the result is the closed form, equal to the
reduced closed form. -/
theorem XSec_single_amplitude_closed_form (ev : ReinSeghalRESPXSec α F) (ext : Externals α)
    (i : Interaction α) (kps : KinePhaseSpace_t)
    (hp : ValidProcess i = true) (hk : ValidKinematics ext i = true)
    (hj : ¬ (ev.fUsingDisResJoin = true ∧ i.GetKinematics.W ≥ ev.fWcut))
    (hnu : pdg.IsNeutrino i.GetInitialState.ProbePDGCode = true)
    (hbw : breitWignerWeight ev i.GetExclusiveTag.Resonance i.GetKinematics.W = some 1)
    (hfree : i.kIAssumeFreeNucleon = true)
    (hamp : (selectHAmplModel ev i.GetProcessInfo.IsWeakCC
        (pdg.IsProton i.GetInitialState.GetTarget.StruckNucleonPDGCode)).Compute
        i.GetExclusiveTag.Resonance
        (ev.fFKR i.GetKinematics.q2 i.GetKinematics.W
          i.GetInitialState.GetTarget.StruckNucleonMass
          (ev.fBaryonResDataSet.ResonanceIndex i.GetExclusiveTag.Resonance)) =
      some { AmpPlus1 := 0, AmpPlus3 := 1, AmpMinus1 := 0, AmpMinus3 := 0,
             Amp0Plus := 0, Amp0Minus := 0 }) :
    XSec ev ext i kps =
      some (closedFormXSec ext i.GetKinematics.W i.GetKinematics.q2
        i.GetInitialState.GetTarget.StruckNucleonMass
        (ev.fBaryonResDataSet.Mass i.GetExclusiveTag.Resonance) i.GetInitialState.ProbeE) ∧
    ((i.GetKinematics.W ^ 2 - i.GetInitialState.GetTarget.StruckNucleonMass ^ 2) /
        (2 * i.GetInitialState.GetTarget.StruckNucleonMass) ≠ 0 →
      XSec ev ext i kps =
        some (reducedClosedFormXSec ext i.GetKinematics.W i.GetKinematics.q2
          i.GetInitialState.GetTarget.StruckNucleonMass
          (ev.fBaryonResDataSet.Mass i.GetExclusiveTag.Resonance) i.GetInitialState.ProbeE)) ∧
    (i.GetKinematics.W = 1.2 → i.GetKinematics.q2 = -0.3 →
      i.GetInitialState.GetTarget.StruckNucleonMass = 0.939 →
      ev.fBaryonResDataSet.Mass i.GetExclusiveTag.Resonance = 1.232 →
      i.GetInitialState.ProbeE = 1.0 →
      XSec ev ext i kps = some (closedFormXSec ext 1.2 (-0.3) 0.939 1.232 1.0) ∧
      closedFormXSec ext 1.2 (-0.3) 0.939 1.232 1.0 =
        reducedClosedFormXSec ext 1.2 (-0.3) 0.939 1.232 1.0) := by
  have hX : XSec ev ext i kps =
      some (closedFormXSec ext i.GetKinematics.W i.GetKinematics.q2
        i.GetInitialState.GetTarget.StruckNucleonMass
        (ev.fBaryonResDataSet.Mass i.GetExclusiveTag.Resonance) i.GetInitialState.ProbeE) := by
    rw [XSec_of_gates ev ext i kps hp hk hj]
    simp only [hamp, hbw, hnu, hfree, if_true, one_mul]
    rw [combineXSec_single_amplitude]
  refine ⟨hX, ?_, ?_⟩
  · intro hk0
    rw [hX, closedFormXSec_eq_reduced ext _ _ _ _ _ hk0]
  · intro hW hq hM hR hE
    rw [hX, hW, hq, hM, hR, hE]
    refine ⟨rfl, ?_⟩
    apply closedFormXSec_eq_reduced
    norm_num

/-- Witness of C9: the deterministic fixture over `ℚ`. -/
theorem XSec_single_amplitude_closed_form_witness :
    ValidProcess iFixtureQ = true ∧ ValidKinematics extQ iFixtureQ = true ∧
    pdg.IsNeutrino iFixtureQ.GetInitialState.ProbePDGCode = true ∧
    iFixtureQ.kIAssumeFreeNucleon = true ∧
    XSec evFixtureQ extQ iFixtureQ KinePhaseSpace_t.kPSWQ2fE =
      some (reducedClosedFormXSec extQ 1.2 (-0.3) 0.939 1.232 1.0) :=
  have hk : ValidKinematics extQ iFixtureQ = true := by
    norm_num [ValidKinematics, extQ, iFixtureQ, utils.math.IsWithinLimits]
  have h := XSec_single_amplitude_closed_form evFixtureQ extQ iFixtureQ
    KinePhaseSpace_t.kPSWQ2fE (by decide) hk (by simp [evFixtureQ, evQ]) (by decide) rfl rfl rfl
  ⟨by decide, hk, by decide, rfl, h.2.1 (by norm_num [iFixtureQ])⟩

end Claims

section ClaimsProcess

variable {α : Type}

/-- C5: `ValidProcess` is true for every interaction with the bit `kISkipProcessChk` set;
with the bit unset it is true exactly when the process is resonant and weak, the struck
nucleon is a proton or a neutron, the probe is a neutrino or an antineutrino and the
resonance is known. -/
theorem ValidProcess_iff (i : Interaction α) :
    (i.kISkipProcessChk = true → ValidProcess i = true) ∧
    (i.kISkipProcessChk = false →
      (ValidProcess i = true ↔
        i.GetProcessInfo.IsResonant = true ∧ i.GetProcessInfo.IsWeak = true ∧
        (pdg.IsProton i.GetInitialState.GetTarget.StruckNucleonPDGCode = true ∨
          pdg.IsNeutron i.GetInitialState.GetTarget.StruckNucleonPDGCode = true) ∧
        (pdg.IsNeutrino i.GetInitialState.ProbePDGCode = true ∨
          pdg.IsAntiNeutrino i.GetInitialState.ProbePDGCode = true) ∧
        i.GetExclusiveTag.KnownResonance = true)) := by
  constructor
  · intro h
    simp [ValidProcess, h]
  · intro h
    unfold ValidProcess
    simp only [h, Bool.false_eq_true, if_false]
    cases i.GetProcessInfo.IsResonant <;> cases i.GetProcessInfo.IsWeak <;>
      cases pdg.IsProton i.GetInitialState.GetTarget.StruckNucleonPDGCode <;>
      cases pdg.IsNeutron i.GetInitialState.GetTarget.StruckNucleonPDGCode <;>
      cases pdg.IsNeutrino i.GetInitialState.ProbePDGCode <;>
      cases pdg.IsAntiNeutrino i.GetInitialState.ProbePDGCode <;>
      cases i.GetExclusiveTag.KnownResonance <;> simp

/-- Witness of C5: `iSkipQ` has the bit set and is not resonant; `iQ` has the bit unset. -/
theorem ValidProcess_iff_witness :
    (iSkipQ.kISkipProcessChk = true ∧ iSkipQ.GetProcessInfo.IsResonant = false ∧
      ValidProcess iSkipQ = true) ∧
    (iQ.kISkipProcessChk = false ∧
      (ValidProcess iQ = true ↔
        iQ.GetProcessInfo.IsResonant = true ∧ iQ.GetProcessInfo.IsWeak = true ∧
        (pdg.IsProton iQ.GetInitialState.GetTarget.StruckNucleonPDGCode = true ∨
          pdg.IsNeutron iQ.GetInitialState.GetTarget.StruckNucleonPDGCode = true) ∧
        (pdg.IsNeutrino iQ.GetInitialState.ProbePDGCode = true ∨
          pdg.IsAntiNeutrino iQ.GetInitialState.ProbePDGCode = true) ∧
        iQ.GetExclusiveTag.KnownResonance = true)) :=
  ⟨⟨rfl, rfl, (ValidProcess_iff iSkipQ).1 rfl⟩, ⟨rfl, (ValidProcess_iff iQ).2 rfl⟩⟩

end ClaimsProcess

end genie
